import Mathlib

/-!
Verification of the frame-presentation and swap-chain-lifecycle logic of the
vulkan-tutorial repository (src/src/application.cpp), via a shallow embedding:
machine integers are naturals (with explicit wrap where overflow matters),
Vulkan handles are indices, the driver is an explicit per-iteration response
record, and the stateful per-frame protocol is a pure function from
application state and driver response to an outcome carrying the new state
and the trace of driver calls made, in source order.
-/

namespace VulkanTutorial

/-- Quotient of VkResult keeping exactly the values the code branches on
(`VK_SUCCESS`, `VK_SUBOPTIMAL_KHR`, `VK_ERROR_OUT_OF_DATE_KHR`); every other
result code behaves identically in application.cpp and is collapsed into
`otherError`. -/
inductive VkResult where
  | success
  | suboptimalKHR
  | errorOutOfDateKHR
  | otherError
deriving DecidableEq, Repr

/-- Status of a VkFence as observable by the single application thread:
`signaled`, `unsignaled` (reset, with no submitted GPU work that will signal
it), or `pending` (reset and registered with a queue submission, so the GPU
will eventually signal it). -/
inductive FenceStatus where
  | signaled
  | unsignaled
  | pending
deriving DecidableEq, Repr

/-- concurrentFrames_, set to 2 in the Application constructor
(application.cpp line 17). -/
def concurrentFrames : Nat := 2

/-- Reference behaviour of std::clamp(v, lo, hi):
if v < lo then lo else if hi < v then hi else v.  (When lo > hi the C++
standard makes the call undefined; both mainstream library implementations
compute exactly this formula, which is what the repository executes.) -/
def stdClamp (v lo hi : Nat) : Nat :=
  if v < lo then lo else if hi < v then hi else v

/-- Two-to-the-thirty-two, the modulus of the C++ `unsigned` arithmetic used
by the swap-chain image-count computation. -/
def uint32Mod : Nat := 4294967296

/-- UINT32_MAX, the sentinel component value tested by
Application::ChooseSwapChainExtent. -/
def uint32Max : Nat := 4294967295

/-- VkExtent2D. -/
structure Extent2D where
  width : Nat
  height : Nat
deriving DecidableEq, Repr

/-- The fields of VkSurfaceCapabilitiesKHR that application.cpp reads. -/
structure SurfaceCapabilities where
  minImageCount : Nat
  maxImageCount : Nat
  currentExtent : Extent2D
  minImageExtent : Extent2D
  maxImageExtent : Extent2D
deriving DecidableEq, Repr

/-- VkSurfaceFormatKHR: a (format, colorSpace) pair; both components are
numeric enumeration values. -/
structure SurfaceFormat where
  format : Nat
  colorSpace : Nat
deriving DecidableEq, Repr

/-- Numeric value of VK_FORMAT_B8G8R8A8_SRGB in vulkan_core.h. -/
def formatB8G8R8A8Srgb : Nat := 50

/-- Numeric value of VK_COLOR_SPACE_SRGB_NONLINEAR_KHR in vulkan_core.h. -/
def colorSpaceSrgbNonlinear : Nat := 0

/-- The four VkPresentModeKHR values discussed by the code. -/
inductive PresentMode where
  | immediate
  | mailbox
  | fifo
  | fifoRelaxed
deriving DecidableEq, Repr

/-- SwapChainSupportData (include/swap_chain_support_data.h): surface
capabilities plus the supported format and presentation-mode lists. -/
structure SwapChainSupportData where
  surfaceCapabilities : SurfaceCapabilities
  formats : List SurfaceFormat
  presentationModes : List PresentMode
deriving DecidableEq, Repr

/-- Application::ChooseSwapChainSurfaceFormat (application.cpp lines
1325-1339): scan for the B8G8R8A8_SRGB + SRGB_NONLINEAR pair, otherwise
return availableFormats[0].  On an empty list the C++ indexing is an
out-of-bounds access; the embedding returns `none` there (no format value is
produced). -/
def chooseSwapChainSurfaceFormat (availableFormats : List SurfaceFormat) :
    Option SurfaceFormat :=
  match availableFormats.find?
      (fun f => f.format == formatB8G8R8A8Srgb &&
                f.colorSpace == colorSpaceSrgbNonlinear) with
  | some f => some f
  | none => availableFormats.head?

/-- Application::ChooseSwapChainPresentationMode (lines 1341-1357): scan for
MAILBOX, otherwise FIFO. -/
def chooseSwapChainPresentationMode (availableModes : List PresentMode) :
    PresentMode :=
  match availableModes.find? (fun m => m == PresentMode.mailbox) with
  | some m => m
  | none => PresentMode.fifo

/-- Application::ChooseSwapChainExtent (lines 1359-1381): if both components
of currentExtent differ from UINT32_MAX, return currentExtent verbatim;
otherwise clamp the window framebuffer pixel size componentwise to
minImageExtent/maxImageExtent. -/
def chooseSwapChainExtent (caps : SurfaceCapabilities)
    (fbWidth fbHeight : Nat) : Extent2D :=
  if caps.currentExtent.width ≠ uint32Max ∧
     caps.currentExtent.height ≠ uint32Max then
    caps.currentExtent
  else
    { width := stdClamp fbWidth caps.minImageExtent.width
        caps.maxImageExtent.width
      height := stdClamp fbHeight caps.minImageExtent.height
        caps.maxImageExtent.height }

/-- The specification's wording for the extent policy, written independently
of the source: clamp the window size exactly when the surface reports the
sentinel match-window pair (both components UINT32_MAX), and otherwise
return the surface-reported current extent verbatim. -/
def chooseSwapChainExtentSpec (caps : SurfaceCapabilities)
    (fbWidth fbHeight : Nat) : Extent2D :=
  if caps.currentExtent.width = uint32Max ∧
     caps.currentExtent.height = uint32Max then
    { width := stdClamp fbWidth caps.minImageExtent.width
        caps.maxImageExtent.width
      height := stdClamp fbHeight caps.minImageExtent.height
        caps.maxImageExtent.height }
  else
    caps.currentExtent

/-- The requested swap-chain image count of Application::InitializeSwapChain
(lines 287-289): `unsigned count = minImageCount + 1;
count = std::clamp(count, count, maxImageCount);`.  The addition is
`unsigned` arithmetic, hence the explicit wrap. -/
def requestedSwapChainImageCount (minImageCount maxImageCount : Nat) : Nat :=
  let count := (minImageCount + 1) % uint32Mod
  stdClamp count count maxImageCount

/-- The swap-chain-adequacy test of Application::CheckPhysicalDevice (lines
1220-1221): both the format list and the presentation-mode list must be
nonempty. -/
def swapChainAdequate (d : SwapChainSupportData) : Bool :=
  !d.formats.isEmpty && !d.presentationModes.isEmpty

/-- A physical device as far as Application::CheckPhysicalDevice observes
it: whether its queue-family indices are complete, whether the desired
device extensions are supported, and its swap-chain support data. -/
structure PhysicalDevice where
  queueIndicesComplete : Bool
  extensionsSupported : Bool
  support : SwapChainSupportData
deriving DecidableEq, Repr

/-- Application::CheckPhysicalDevice (lines 1195-1236): the device is
accepted iff its queue-family indices are complete, the desired extensions
are supported, and (checked only in that case) the swap chain is adequate. -/
def checkPhysicalDevice (d : PhysicalDevice) : Bool :=
  let swapChainSupported :=
    if d.extensionsSupported then swapChainAdequate d.support else false
  d.queueIndicesComplete && d.extensionsSupported && swapChainSupported

/-- Application::CheckPhysicalDevices (lines 1182-1193): scan the device
list for the first device passing CheckPhysicalDevice; that device's data is
the one recorded in physicalDeviceData_. -/
def checkPhysicalDevices (devices : List PhysicalDevice) :
    Option PhysicalDevice :=
  devices.find? checkPhysicalDevice

/-- Error message of the std::runtime_error thrown by
Application::InitializePhysicalDevice (line 212) when no device passes the
checks; this is the failure the specification names UnsupportedSurfaceError
when it is caused by empty format/presentation-mode lists. -/
def noCompatibleDeviceMsg : String := "Failed to find compatible physical device."

/-- Application::InitializePhysicalDevice (lines 206-214): select the first
compatible device or throw. -/
def initializePhysicalDevice (devices : List PhysicalDevice) :
    Except String PhysicalDevice :=
  match checkPhysicalDevices devices with
  | some d => Except.ok d
  | none => Except.error noCompatibleDeviceMsg

/-- The swap-chain configuration produced by
Application::InitializeSwapChain: chosen surface format, presentation mode,
extent and requested image count. -/
structure SwapChainConfig where
  surfaceFormat : SurfaceFormat
  presentationMode : PresentMode
  extent : Extent2D
  imageCount : Nat
deriving DecidableEq, Repr

/-- The policy part of Application::InitializeSwapChain (lines 280-299):
choose format, presentation mode, extent and image count from the queried
support data (and the window framebuffer size, read when the extent is the
sentinel).  `none` arises exactly when ChooseSwapChainSurfaceFormat performs
its out-of-bounds read on an empty format list. -/
def initializeSwapChainConfig (d : SwapChainSupportData)
    (fbWidth fbHeight : Nat) : Option SwapChainConfig :=
  match chooseSwapChainSurfaceFormat d.formats with
  | none => none
  | some fmt =>
      some { surfaceFormat := fmt
             presentationMode := chooseSwapChainPresentationMode d.presentationModes
             extent := chooseSwapChainExtent d.surfaceCapabilities fbWidth fbHeight
             imageCount := requestedSwapChainImageCount
               d.surfaceCapabilities.minImageCount
               d.surfaceCapabilities.maxImageCount }

/-- The initialization sequence of Application::Initialize restricted to
swap-chain construction (lines 47-63): first InitializePhysicalDevice (which
throws when no device passes CheckPhysicalDevice), then InitializeSwapChain
on the selected device's data.  A `none` from the config step would be the
out-of-bounds read; it is mapped to that same observable here to state that
it is never reached. -/
def initializeDeviceAndSwapChain (devices : List PhysicalDevice)
    (fbWidth fbHeight : Nat) : Except String (Option SwapChainConfig) :=
  match initializePhysicalDevice devices with
  | Except.error e => Except.error e
  | Except.ok d =>
      Except.ok (initializeSwapChainConfig d.support fbWidth fbHeight)

/-- One driver call made by RenderFrame, CreateSwapChain, DestroySwapChain,
Update or Shutdown, recorded in source order.  Fences and semaphores are
identified by their frame-slot index, framebuffers/image views by their
position; this is faithful because the code creates exactly one such object
per slot or per image and never aliases them. -/
inductive Action where
  | waitFence (slot : Nat)
  | acquireImage (slot : Nat)
  | waitImageFence (slot : Nat)
  | markImageInFlight (image slot : Nat)
  | resetFence (slot : Nat)
  | submit (image slot : Nat)
  | present (image slot : Nat)
  | deviceWaitIdle
  | destroyFramebuffer (i : Nat)
  | freeCommandBuffers
  | destroyPipeline
  | destroyPipelineLayout
  | destroyRenderPass
  | destroyImageView (i : Nat)
  | destroySwapchain
  | createSwapchainObj
  | createImageViews
  | createPipeline
  | createFramebuffers
  | createCommandBuffers
  | resizeImagesInFlight (n : Nat)
  | destroyIndexBuffer
  | destroyVertexBuffer
  | destroyRenderFinishedSemaphore (slot : Nat)
  | destroyImageAvailableSemaphore (slot : Nat)
  | destroyFence (slot : Nat)
  | destroyCommandPool
  | destroyDevice
  | destroyDebugMessenger
  | destroySurface
  | destroyVkInstance
  | destroyWindow
  | terminateGlfw
deriving DecidableEq, Repr

/-- The mutable Application fields the frame scheduler reads and writes:
currentFrameIndex_, framebufferResized_, the imagesInFlight_ table (an entry
is the slot index whose fence handle is stored there, or none for
VK_NULL_HANDLE), and the status of each slot's inFlightFences_ entry. -/
structure AppState where
  currentFrameIndex : Nat
  framebufferResized : Bool
  imagesInFlight : List (Option Nat)
  fences : List FenceStatus
deriving DecidableEq, Repr

/-- The driver's responses consumed by one RenderFrame iteration: the result
and image index of vkAcquireNextImageKHR, the results of vkQueueSubmit and
vkQueuePresentKHR, the successive glfwGetFramebufferSize readings available
should CreateSwapChain run, and the image count of the swap chain it would
then create. -/
structure DriverResponse where
  acquireResult : VkResult
  imageIndex : Nat
  submitResult : VkResult
  presentResult : VkResult
  framebufferSizes : List (Nat × Nat)
  newImageCount : Nat
deriving DecidableEq, Repr

/-- Outcome of running a piece of the per-frame protocol: normal return with
the new state, a thrown std::runtime_error with its message, an everlasting
block inside a wait (an unsignaled fence nothing will signal, or the
minimized-window poll loop never seeing a nonzero size), or undefined
behaviour from an out-of-bounds vector access.  Each outcome carries the
trace of driver calls made up to that point. -/
inductive RunResult where
  | ok (st : AppState) (tr : List Action)
  | fatal (msg : String) (tr : List Action)
  | blocked (tr : List Action)
  | invalid (tr : List Action)
deriving DecidableEq, Repr

/-- The trace of driver calls an outcome performed. -/
def RunResult.trace : RunResult → List Action
  | .ok _ tr => tr
  | .fatal _ tr => tr
  | .blocked tr => tr
  | .invalid tr => tr

/-- Result of one vkWaitForFences call with infinite timeout on a single
fence: it proceeds (the fence, once pending, is GPU-signaled and the wait
returns with it signaled), blocks forever on an unsignaled fence no
submission has registered, or is an out-of-bounds access. -/
inductive WaitResult where
  | proceeds (fences : List FenceStatus)
  | blocksForever
  | outOfRange
deriving DecidableEq, Repr

/-- vkWaitForFences(device, 1, fences[slot], TRUE, UINT64_MAX) on the
per-slot fence vector. -/
def vkWaitForFence (fences : List FenceStatus) (slot : Nat) : WaitResult :=
  match fences[slot]? with
  | none => WaitResult.outOfRange
  | some FenceStatus.unsignaled => WaitResult.blocksForever
  | some _ => WaitResult.proceeds (fences.set slot FenceStatus.signaled)

/-- std::vector::resize(n, VK_NULL_HANDLE): keep the first n entries,
append null entries if the vector grows. -/
def resizeNull (l : List (Option Nat)) (n : Nat) : List (Option Nat) :=
  l.take n ++ List.replicate (n - l.length) none

/-- The minimized-window poll loop of Application::CreateSwapChain (lines
954-962): repeatedly read the framebuffer size until a size with both
components nonzero appears; `none` means every reading is degenerate and the
loop never exits. -/
def pollFramebufferSize : List (Nat × Nat) → Option (Nat × Nat)
  | [] => none
  | s :: rest =>
      if s.1 = 0 || s.2 = 0 then pollFramebufferSize rest else some s

/-- The driver calls of Application::DestroySwapChain (lines 977-993), in
source order, for a swap chain with n images (n framebuffers and n image
views): per-framebuffer destroys, free of the command buffers, pipeline,
pipeline layout, render pass, per-image-view destroys, then the swap chain
handle. -/
def destroySwapChainTrace (n : Nat) : List Action :=
  ((List.range n).map Action.destroyFramebuffer)
    ++ [Action.freeCommandBuffers, Action.destroyPipeline,
        Action.destroyPipelineLayout, Action.destroyRenderPass]
    ++ ((List.range n).map Action.destroyImageView)
    ++ [Action.destroySwapchain]

/-- The driver calls of Application::CreateSwapChain (lines 953-975) after
the poll loop has seen a nonzero size, for an old swap chain with oldCount
images and a new one with newCount: device-idle wait, teardown of the old
chain, recreation of swap chain, image views, pipeline, framebuffers and
command buffers, and the resize of the imagesInFlight_ table. -/
def rebuildTrace (oldCount newCount : Nat) : List Action :=
  Action.deviceWaitIdle :: destroySwapChainTrace oldCount
    ++ [Action.createSwapchainObj, Action.createImageViews,
        Action.createPipeline, Action.createFramebuffers,
        Action.createCommandBuffers, Action.resizeImagesInFlight newCount]

/-- Application::CreateSwapChain (lines 953-975) as a state transformer: it
blocks in the poll loop if no nonzero framebuffer size ever appears, and
otherwise rebuilds the swap-chain-dependent objects and resizes
imagesInFlight_ to the new image count.  Frame-slot fences, the current
frame index and the resized flag are untouched here. -/
def createSwapChainStep (st : AppState) (r : DriverResponse) : RunResult :=
  match pollFramebufferSize r.framebufferSizes with
  | none => RunResult.blocked []
  | some _ =>
      RunResult.ok
        { st with imagesInFlight := resizeNull st.imagesInFlight r.newImageCount }
        (rebuildTrace st.imagesInFlight.length r.newImageCount)

/-- The frame-index advance of RenderFrame line 950:
`currentFrameIndex_ = (currentFrameIndex_ + 1) & concurrentFrames_;` - a
bitwise AND with the slot count itself (not with count - 1, and not a
modulo). -/
def advanceFrameIndex (i : Nat) : Nat :=
  Nat.land (i + 1) concurrentFrames

/-- The in-flight check of RenderFrame lines 888-891: if imagesInFlight_ at
the acquired index holds a fence (the fence of slot s), wait on it;
otherwise nothing happens.  Returns the wait outcome and the driver calls
made. -/
def imageFenceWait (fences : List FenceStatus) (entry : Option Nat) :
    WaitResult × List Action :=
  match entry with
  | none => (WaitResult.proceeds fences, [])
  | some s => (vkWaitForFence fences s, [Action.waitImageFence s])

/-- The trace of the main (submitting) path of RenderFrame: fence wait,
acquire, the optional in-flight wait, table claim, fence reset, submit,
present. -/
def mainTrace (cur image : Nat) (waitTr : List Action) : List Action :=
  [Action.waitFence cur, Action.acquireImage cur] ++ waitTr ++
    [Action.markImageInFlight image cur, Action.resetFence cur,
     Action.submit image cur, Action.present image cur]

/-- Message of the std::runtime_error thrown at RenderFrame line 883. -/
def acquireFailureMsg : String := "Failed to acquire swapchain image."

/-- Message of the std::runtime_error thrown at RenderFrame line 922. -/
def submitFailureMsg : String := "Failed to submit rendering command buffer."

/-- Message of the std::runtime_error thrown at RenderFrame line 947. -/
def presentFailureMsg : String := "Failed to present swap chain image."

/-- Application::RenderFrame (application.cpp lines 863-951), one iteration,
as a pure transition on the scheduler state given the driver's responses:
wait on the current slot's fence; acquire an image (out-of-date triggers
CreateSwapChain and an early return, any result other than success or
suboptimal throws); if the acquired index is claimed in imagesInFlight_,
wait on the claiming fence; record the current slot's fence in the table;
reset the current fence and submit (a failed submit throws); present
(out-of-date, suboptimal or a pending resize flag triggers CreateSwapChain
and clears the flag, any other non-success result throws); finally advance
the frame index with the bitwise AND of line 950. -/
def renderFrame (st : AppState) (r : DriverResponse) : RunResult :=
  let cur := st.currentFrameIndex
  match vkWaitForFence st.fences cur with
  | WaitResult.outOfRange => RunResult.invalid []
  | WaitResult.blocksForever => RunResult.blocked [Action.waitFence cur]
  | WaitResult.proceeds fences1 =>
    let pre : List Action := [Action.waitFence cur, Action.acquireImage cur]
    let st1 : AppState := { st with fences := fences1 }
    if r.acquireResult = VkResult.errorOutOfDateKHR then
      match createSwapChainStep st1 r with
      | RunResult.ok st2 tr => RunResult.ok st2 (pre ++ tr)
      | RunResult.fatal m tr => RunResult.fatal m (pre ++ tr)
      | RunResult.blocked tr => RunResult.blocked (pre ++ tr)
      | RunResult.invalid tr => RunResult.invalid (pre ++ tr)
    else if r.acquireResult ≠ VkResult.success ∧
            r.acquireResult ≠ VkResult.suboptimalKHR then
      RunResult.fatal acquireFailureMsg pre
    else
      match st1.imagesInFlight[r.imageIndex]? with
      | none => RunResult.invalid pre
      | some entry =>
        let waited := imageFenceWait st1.fences entry
        match waited.1 with
        | WaitResult.outOfRange => RunResult.invalid pre
        | WaitResult.blocksForever => RunResult.blocked (pre ++ waited.2)
        | WaitResult.proceeds fences2 =>
          let images2 := st1.imagesInFlight.set r.imageIndex (some cur)
          let fences3 := fences2.set cur FenceStatus.unsignaled
          if r.submitResult ≠ VkResult.success then
            RunResult.fatal submitFailureMsg
              (pre ++ waited.2 ++
                [Action.markImageInFlight r.imageIndex cur,
                 Action.resetFence cur])
          else
            let fences4 := fences3.set cur FenceStatus.pending
            let st2 : AppState :=
              { st1 with imagesInFlight := images2, fences := fences4 }
            let trMain := pre ++ waited.2 ++
              [Action.markImageInFlight r.imageIndex cur,
               Action.resetFence cur,
               Action.submit r.imageIndex cur,
               Action.present r.imageIndex cur]
            if r.presentResult = VkResult.errorOutOfDateKHR ∨
               r.presentResult = VkResult.suboptimalKHR ∨
               st2.framebufferResized then
              match createSwapChainStep st2 r with
              | RunResult.ok st3 tr =>
                  RunResult.ok
                    { st3 with framebufferResized := false,
                               currentFrameIndex := advanceFrameIndex cur }
                    (trMain ++ tr)
              | RunResult.fatal m tr => RunResult.fatal m (trMain ++ tr)
              | RunResult.blocked tr => RunResult.blocked (trMain ++ tr)
              | RunResult.invalid tr => RunResult.invalid (trMain ++ tr)
            else if r.presentResult ≠ VkResult.success then
              RunResult.fatal presentFailureMsg trMain
            else
              RunResult.ok
                { st2 with currentFrameIndex := advanceFrameIndex cur }
                trMain

/-- The scheduler state right after Application::Initialize: frame index 0
and resize flag false (constructor, lines 14-21), imagesInFlight_ of the
swap-chain image count filled with VK_NULL_HANDLE and every in-flight fence
created in the signaled state
(InitializeSynchronizationObjects, lines 784-804). -/
def initialState (imageCount : Nat) : AppState :=
  { currentFrameIndex := 0
    framebufferResized := false
    imagesInFlight := List.replicate imageCount none
    fences := List.replicate concurrentFrames FenceStatus.signaled }

/-- The event loop of Application::Update (lines 65-72): one RenderFrame per
tick, collecting each iteration's trace. -/
def runFrames (st : AppState) :
    List DriverResponse → RunResult × List (List Action)
  | [] => (RunResult.ok st [], [])
  | r :: rest =>
      match renderFrame st r with
      | RunResult.ok st1 tr =>
          let (out, trs) := runFrames st1 rest
          (out, tr :: trs)
      | out => (out, [out.trace])

/-- The driver calls made from the end of Application::Update's event loop
through Application::Shutdown (lines 65-106), for a swap chain holding n
images at shutdown: the device-idle wait, DestroySwapChain, buffer and
synchronization-object teardown, command pool, device, debug messenger,
surface, instance, window. -/
def updateShutdownTrace (n : Nat) : List Action :=
  Action.deviceWaitIdle :: destroySwapChainTrace n
    ++ [Action.destroyIndexBuffer, Action.destroyVertexBuffer]
    ++ ((List.range concurrentFrames).map fun i =>
          [Action.destroyRenderFinishedSemaphore i,
           Action.destroyImageAvailableSemaphore i,
           Action.destroyFence i]).flatten
    ++ [Action.destroyCommandPool, Action.destroyDevice,
        Action.destroyDebugMessenger, Action.destroySurface,
        Action.destroyVkInstance, Action.destroyWindow, Action.terminateGlfw]

/-- Action a has an occurrence strictly before an occurrence of action b in
the trace l: the trace splits into a part containing a followed by a part
containing b. -/
def SeqBefore (l : List Action) (a b : Action) : Prop :=
  ∃ l₁ l₂, l = l₁ ++ l₂ ∧ a ∈ l₁ ∧ b ∈ l₂

/-- No fence is left reset without a registered submission that will signal
it; waiting on any fence of such a state returns. -/
def FencesLive (st : AppState) : Prop :=
  ∀ f ∈ st.fences, f ≠ FenceStatus.unsignaled

/-- A driver response whose every result is success: image 0 acquired,
submit and present succeed, framebuffer 800x600, two swap-chain images. -/
def allSuccessResponse : DriverResponse :=
  { acquireResult := VkResult.success, imageIndex := 0,
    submitResult := VkResult.success, presentResult := VkResult.success,
    framebufferSizes := [(800, 600)], newImageCount := 2 }

/-- A scheduler state in which image 0 is claimed by slot 0's fence, which
is pending. -/
def claimedImageState : AppState :=
  { currentFrameIndex := 0
    framebufferResized := false
    imagesInFlight := [some 0, none]
    fences := [FenceStatus.pending, FenceStatus.signaled] }

/-- Surface capabilities whose currentExtent has exactly one component equal
to UINT32_MAX. -/
def mixedSentinelCaps : SurfaceCapabilities :=
  { minImageCount := 1, maxImageCount := 3,
    currentExtent := { width := uint32Max, height := 600 },
    minImageExtent := { width := 1, height := 1 },
    maxImageExtent := { width := 1000, height := 1000 } }

/-- Surface capabilities reporting the Vulkan match-window sentinel (both
components of currentExtent equal to UINT32_MAX). -/
def fullSentinelCaps : SurfaceCapabilities :=
  { minImageCount := 1, maxImageCount := 3,
    currentExtent := { width := uint32Max, height := uint32Max },
    minImageExtent := { width := 1, height := 1 },
    maxImageExtent := { width := 1000, height := 1000 } }

/-- Surface capabilities reporting a plain (non-sentinel) current extent. -/
def plainExtentCaps : SurfaceCapabilities :=
  { minImageCount := 1, maxImageCount := 3,
    currentExtent := { width := 640, height := 480 },
    minImageExtent := { width := 1, height := 1 },
    maxImageExtent := { width := 1000, height := 1000 } }

/-- A device whose surface exposes no formats. -/
def deviceWithoutFormats : PhysicalDevice :=
  { queueIndicesComplete := true, extensionsSupported := true,
    support := { surfaceCapabilities := plainExtentCaps, formats := [],
                 presentationModes := [PresentMode.fifo] } }

/-- A device whose surface exposes one format and one presentation mode. -/
def adequateDevice : PhysicalDevice :=
  { queueIndicesComplete := true, extensionsSupported := true,
    support := { surfaceCapabilities := plainExtentCaps,
                 formats := [{ format := formatB8G8R8A8Srgb,
                               colorSpace := colorSpaceSrgbNonlinear }],
                 presentationModes := [PresentMode.fifo] } }

/-- C1: the claim states the frame slot index is advanced modulo the slot
count, visiting 0, 1, 0, 1, ...  The code instead computes
`(currentFrameIndex_ + 1) & concurrentFrames_` (bitwise AND with 2, line
950): starting from 0 the index is 0 after one full successful RenderFrame
iteration and stays 0 after any number of advances, so slot 1 is never
reached, while the modulo the claim (and spec section 9) prescribes would
give 1. -/
theorem renderFrame_frameIndex_stuck_at_zero :
    advanceFrameIndex 0 = 0 ∧
    (0 + 1) % concurrentFrames = 1 ∧
    (∀ k : Nat, advanceFrameIndex^[k] 0 = 0) ∧
    ∃ st tr, renderFrame (initialState 2) allSuccessResponse =
        RunResult.ok st tr ∧ st.currentFrameIndex = 0 := by
  refine ⟨by decide, by decide, ?_, ?_⟩
  · intro k
    exact Function.iterate_fixed (by decide) k
  · exact ⟨_, _, rfl, rfl⟩

/-- Witness for the C1 theorem: five successive advances from slot 0 leave
the index at 0. -/
theorem renderFrame_frameIndex_stuck_at_zero_witness :
    advanceFrameIndex^[5] 0 = 0 :=
  renderFrame_frameIndex_stuck_at_zero.2.2.1 5

/-- C6: the claim states the requested image count is the surface minimum
plus one, clamped to the maximum, with maximum 0 meaning no upper clamp.
The code computes `std::clamp(count, count, maxImageCount)` (line 289),
which is min(count, maxImageCount) for every maximum including 0: with
minimum 2 and maximum 0 the code requests 0 images instead of the
unclamped 3 the claim (and the code's own comment, which says maximum 0
means no maximum) prescribes. -/
theorem requestedSwapChainImageCount_zero_max_bug :
    requestedSwapChainImageCount 2 0 = 0 ∧
    (∀ minC : Nat, requestedSwapChainImageCount minC 0 = 0) ∧
    ∀ minC maxC : Nat,
      requestedSwapChainImageCount minC maxC =
        min ((minC + 1) % uint32Mod) maxC := by
  refine ⟨by decide, ?_, ?_⟩
  · intro minC
    unfold requestedSwapChainImageCount stdClamp
    dsimp only
    split_ifs <;> omega
  · intro minC maxC
    unfold requestedSwapChainImageCount stdClamp
    dsimp only
    split_ifs <;> omega

/-- Witness for the C6 theorem: with surface minimum 3 and maximum 2 the
code requests min(4, 2) = 2 images. -/
theorem requestedSwapChainImageCount_zero_max_bug_witness :
    requestedSwapChainImageCount 3 2 = min ((3 + 1) % uint32Mod) 2 :=
  requestedSwapChainImageCount_zero_max_bug.2.2 3 2

/-- C9 counterexample: on a capabilities value whose currentExtent is
(UINT32_MAX, 600) - not the sentinel pair, since only one component carries
the special value - the claim requires the current extent to be returned
verbatim, but the code takes the clamp path and returns the clamped window
size (800, 600). -/
theorem chooseSwapChainExtent_mixed_sentinel_cex :
    chooseSwapChainExtent mixedSentinelCaps 800 600 ≠
      chooseSwapChainExtentSpec mixedSentinelCaps 800 600 ∧
    chooseSwapChainExtent mixedSentinelCaps 800 600 =
      { width := 800, height := 600 } ∧
    chooseSwapChainExtentSpec mixedSentinelCaps 800 600 =
      { width := uint32Max, height := 600 } := by
  refine ⟨?_, by decide, by decide⟩
  decide

/-- C9 (amended): the chosen extent is the surface-reported current extent
verbatim exactly when neither of its components equals UINT32_MAX, and is
the window framebuffer size clamped componentwise to the declared
minimum/maximum image extents whenever at least one component equals
UINT32_MAX - in particular at the Vulkan sentinel (both components
UINT32_MAX), where the claim's clamp branch is recovered. -/
theorem chooseSwapChainExtent_policy (caps : SurfaceCapabilities)
    (fbW fbH : Nat) :
    (caps.currentExtent.width = uint32Max ∨
       caps.currentExtent.height = uint32Max →
      chooseSwapChainExtent caps fbW fbH =
        { width := stdClamp fbW caps.minImageExtent.width
            caps.maxImageExtent.width
          height := stdClamp fbH caps.minImageExtent.height
            caps.maxImageExtent.height }) ∧
    (caps.currentExtent.width ≠ uint32Max →
      caps.currentExtent.height ≠ uint32Max →
      chooseSwapChainExtent caps fbW fbH = caps.currentExtent) := by
  constructor
  · intro h
    unfold chooseSwapChainExtent
    rw [if_neg]
    tauto
  · intro hw hh
    unfold chooseSwapChainExtent
    rw [if_pos ⟨hw, hh⟩]

/-- Witness for the amended C9 theorem: at the full sentinel the clamp
branch fires, and at a plain extent the verbatim branch fires. -/
theorem chooseSwapChainExtent_policy_witness :
    chooseSwapChainExtent fullSentinelCaps 800 600 =
      { width := 800, height := 600 } ∧
    chooseSwapChainExtent plainExtentCaps 800 600 =
      { width := 640, height := 480 } := by
  constructor
  · exact (chooseSwapChainExtent_policy fullSentinelCaps 800 600).1
      (Or.inl (by decide))
  · exact (chooseSwapChainExtent_policy plainExtentCaps 800 600).2
      (by decide) (by decide)

/-- A nonempty format list always yields a chosen format (the preferred
pair if found, otherwise the first element): the out-of-bounds branch is
reached only on an empty list. -/
theorem chooseSwapChainSurfaceFormat_some (formats : List SurfaceFormat)
    (h : formats ≠ []) : ∃ f, chooseSwapChainSurfaceFormat formats = some f := by
  match hf : formats.find?
      (fun f => f.format == formatB8G8R8A8Srgb &&
                f.colorSpace == colorSpaceSrgbNonlinear) with
  | some f =>
      exact ⟨f, by unfold chooseSwapChainSurfaceFormat; rw [hf]⟩
  | none =>
      cases formats with
      | nil => exact absurd rfl h
      | cons a l =>
          exact ⟨a, by unfold chooseSwapChainSurfaceFormat; rw [hf]; rfl⟩

/-- C7: a surface exposing zero supported formats or zero presentation
modes never yields a swap chain: every such device fails
CheckPhysicalDevice, so if all candidate devices are in that situation,
initialization stops with the thrown error (the failure the specification
names UnsupportedSurfaceError) before any swap-chain construction; and
whenever initialization does select a device, the swap-chain build produces
a configuration - the out-of-bounds first-format read on an empty list is
unreachable. -/
theorem initialize_rejects_unsupported_surface
    (devices : List PhysicalDevice) (fbW fbH : Nat) :
    ((∀ d ∈ devices, d.support.formats = [] ∨
        d.support.presentationModes = []) →
      initializeDeviceAndSwapChain devices fbW fbH =
        Except.error noCompatibleDeviceMsg) ∧
    (∀ cfg?, initializeDeviceAndSwapChain devices fbW fbH = Except.ok cfg? →
      ∃ cfg, cfg? = some cfg) := by
  constructor
  · intro h
    have hnone : checkPhysicalDevices devices = none := by
      unfold checkPhysicalDevices
      rw [List.find?_eq_none]
      intro d hd
      have hbad := h d hd
      unfold checkPhysicalDevice swapChainAdequate
      rcases hbad with hb | hb <;>
        simp [hb, Bool.and_eq_true, List.isEmpty_iff]
    unfold initializeDeviceAndSwapChain initializePhysicalDevice
    rw [hnone]
  · intro cfg? hok
    unfold initializeDeviceAndSwapChain initializePhysicalDevice at hok
    match hfind : checkPhysicalDevices devices with
    | none => rw [hfind] at hok; exact absurd hok (by simp)
    | some d =>
        rw [hfind] at hok
        have hcfg : cfg? = initializeSwapChainConfig d.support fbW fbH := by
          simpa using hok.symm
        have hcheck : checkPhysicalDevice d = true :=
          List.find?_some hfind
        have hne : d.support.formats ≠ [] := by
          unfold checkPhysicalDevice swapChainAdequate at hcheck
          simp only [Bool.and_eq_true] at hcheck
          rcases hcheck with ⟨⟨_, hext⟩, hsupp⟩
          rw [if_pos hext, Bool.and_eq_true] at hsupp
          simpa [List.isEmpty_iff] using hsupp.1
        obtain ⟨f, hf⟩ := chooseSwapChainSurfaceFormat_some d.support.formats hne
        refine ⟨⟨f, chooseSwapChainPresentationMode d.support.presentationModes,
          chooseSwapChainExtent d.support.surfaceCapabilities fbW fbH,
          requestedSwapChainImageCount
            d.support.surfaceCapabilities.minImageCount
            d.support.surfaceCapabilities.maxImageCount⟩, ?_⟩
        rw [hcfg]
        unfold initializeSwapChainConfig
        rw [hf]

/-- Witness for the C7 theorem: a single formatless device makes
initialization fail with the recorded error, and an adequate device yields
a configuration. -/
theorem initialize_rejects_unsupported_surface_witness :
    initializeDeviceAndSwapChain [deviceWithoutFormats] 800 600 =
      Except.error noCompatibleDeviceMsg ∧
    ∃ cfg,
      initializeDeviceAndSwapChain [adequateDevice] 800 600 =
        Except.ok (some cfg) := by
  constructor
  · exact (initialize_rejects_unsupported_surface [deviceWithoutFormats]
      800 600).1 (by decide)
  · obtain ⟨cfg, hcfg⟩ :=
      (initialize_rejects_unsupported_surface [adequateDevice] 800 600).2
        (initializeSwapChainConfig adequateDevice.support 800 600) (by rfl)
    exact ⟨cfg, by rw [show initializeDeviceAndSwapChain [adequateDevice]
      800 600 = Except.ok (initializeSwapChainConfig adequateDevice.support
      800 600) from rfl, hcfg]⟩

/-- An element of the left part followed by an element of the right part of
a concatenation are ordered. -/
theorem seqBefore_append {l₁ l₂ : List Action} {a b : Action}
    (ha : a ∈ l₁) (hb : b ∈ l₂) : SeqBefore (l₁ ++ l₂) a b :=
  ⟨l₁, l₂, rfl, ha, hb⟩

/-- SeqBefore is preserved by prepending events. -/
theorem SeqBefore.append_left (pre : List Action) {l : List Action}
    {a b : Action} (h : SeqBefore l a b) : SeqBefore (pre ++ l) a b := by
  obtain ⟨l₁, l₂, rfl, ha, hb⟩ := h
  exact ⟨pre ++ l₁, l₂, by rw [List.append_assoc],
    List.mem_append_right _ ha, hb⟩

/-- SeqBefore is preserved by appending events. -/
theorem SeqBefore.append_right (post : List Action) {l : List Action}
    {a b : Action} (h : SeqBefore l a b) : SeqBefore (l ++ post) a b := by
  obtain ⟨l₁, l₂, rfl, ha, hb⟩ := h
  exact ⟨l₁, l₂ ++ post, by rw [List.append_assoc], ha,
    List.mem_append_left _ hb⟩

/-- A swap-chain rebuild performs no queue submission. -/
theorem submit_not_mem_rebuildTrace (n m i s : Nat) :
    Action.submit i s ∉ rebuildTrace n m := by
  simp [rebuildTrace, destroySwapChainTrace]

/-- A swap-chain rebuild performs no presentation. -/
theorem present_not_mem_rebuildTrace (n m i s : Nat) :
    Action.present i s ∉ rebuildTrace n m := by
  simp [rebuildTrace, destroySwapChainTrace]

/-- A swap-chain rebuild writes no imagesInFlight_ claim. -/
theorem markImageInFlight_not_mem_rebuildTrace (n m i s : Nat) :
    Action.markImageInFlight i s ∉ rebuildTrace n m := by
  simp [rebuildTrace, destroySwapChainTrace]

/-- A swap-chain rebuild resets no fence. -/
theorem resetFence_not_mem_rebuildTrace (n m s : Nat) :
    Action.resetFence s ∉ rebuildTrace n m := by
  simp [rebuildTrace, destroySwapChainTrace]

/-- Inside a rebuild, the old swap chain handle is destroyed before the new
one is created. -/
theorem rebuildTrace_destroy_before_create (n m : Nat) :
    SeqBefore (rebuildTrace n m) Action.destroySwapchain
      Action.createSwapchainObj := by
  refine ⟨Action.deviceWaitIdle :: destroySwapChainTrace n,
    [Action.createSwapchainObj, Action.createImageViews,
     Action.createPipeline, Action.createFramebuffers,
     Action.createCommandBuffers, Action.resizeImagesInFlight m],
    ?_, ?_, ?_⟩
  · simp [rebuildTrace]
  · simp [destroySwapChainTrace]
  · simp

/-- C4: when acquisition reports out-of-date, any completed RenderFrame
iteration consists of the fence wait and the acquire followed exactly by a
full rebuild (whose destroy precedes its recreate), with no queue
submission and no presentation anywhere in the iteration; and when
acquisition reports any result that is neither success, suboptimal nor
out-of-date, the iteration throws the acquire error. -/
theorem renderFrame_acquire_outOfDate_or_fatal (st : AppState)
    (r : DriverResponse) :
    (r.acquireResult = VkResult.errorOutOfDateKHR →
      ∀ st' tr, renderFrame st r = RunResult.ok st' tr →
        tr = [Action.waitFence st.currentFrameIndex,
              Action.acquireImage st.currentFrameIndex]
          ++ rebuildTrace st.imagesInFlight.length r.newImageCount ∧
        SeqBefore tr Action.destroySwapchain Action.createSwapchainObj ∧
        (∀ i s, Action.submit i s ∉ tr) ∧
        (∀ i s, Action.present i s ∉ tr)) ∧
    (r.acquireResult = VkResult.otherError →
      ∀ fences1, vkWaitForFence st.fences st.currentFrameIndex =
          WaitResult.proceeds fences1 →
        renderFrame st r = RunResult.fatal acquireFailureMsg
          [Action.waitFence st.currentFrameIndex,
           Action.acquireImage st.currentFrameIndex]) := by
  constructor
  · intro hacq st' tr hrun
    cases hwr : vkWaitForFence st.fences st.currentFrameIndex with
    | blocksForever => simp [renderFrame, hwr] at hrun
    | outOfRange => simp [renderFrame, hwr] at hrun
    | proceeds fences1 =>
      cases hpoll : pollFramebufferSize r.framebufferSizes with
      | none =>
          simp [renderFrame, hwr, hacq, createSwapChainStep, hpoll] at hrun
      | some sz =>
        simp [renderFrame, hwr, hacq, createSwapChainStep, hpoll] at hrun
        obtain ⟨hst, htr⟩ := hrun
        subst htr
        refine ⟨rfl, ?_, ?_, ?_⟩
        · exact SeqBefore.append_left
            [Action.waitFence st.currentFrameIndex,
             Action.acquireImage st.currentFrameIndex]
            (rebuildTrace_destroy_before_create _ _)
        · intro i s
          simp [submit_not_mem_rebuildTrace]
        · intro i s
          simp [present_not_mem_rebuildTrace]
  · intro hacq fences1 hwr
    simp [renderFrame, hwr, hacq]

/-- Inversion for a normally-returning RenderFrame iteration: the current
fence wait proceeded, and either acquisition reported out-of-date and the
iteration is wait-acquire-rebuild, or acquisition reported success or
suboptimal, the in-flight entry was read and (if claimed) waited, the fence
was reset and the submission succeeded, and presentation either succeeded
plainly or triggered a rebuild. -/
theorem renderFrame_ok_inversion (st st' : AppState) (r : DriverResponse)
    (tr : List Action) (hrun : renderFrame st r = RunResult.ok st' tr) :
    ∃ fences1,
      vkWaitForFence st.fences st.currentFrameIndex =
        WaitResult.proceeds fences1 ∧
      ((r.acquireResult = VkResult.errorOutOfDateKHR ∧
        (∃ sz, pollFramebufferSize r.framebufferSizes = some sz) ∧
        st' = { currentFrameIndex := st.currentFrameIndex,
                framebufferResized := st.framebufferResized,
                imagesInFlight := resizeNull st.imagesInFlight r.newImageCount,
                fences := fences1 } ∧
        tr = [Action.waitFence st.currentFrameIndex,
              Action.acquireImage st.currentFrameIndex]
          ++ rebuildTrace st.imagesInFlight.length r.newImageCount) ∨
       ((r.acquireResult = VkResult.success ∨
         r.acquireResult = VkResult.suboptimalKHR) ∧
        r.submitResult = VkResult.success ∧
        ∃ entry fences2,
          st.imagesInFlight[r.imageIndex]? = some entry ∧
          (imageFenceWait fences1 entry).1 = WaitResult.proceeds fences2 ∧
          ((¬(r.presentResult = VkResult.errorOutOfDateKHR ∨
              r.presentResult = VkResult.suboptimalKHR ∨
              st.framebufferResized = true) ∧
            r.presentResult = VkResult.success ∧
            st' = { currentFrameIndex := advanceFrameIndex st.currentFrameIndex,
                    framebufferResized := st.framebufferResized,
                    imagesInFlight := st.imagesInFlight.set r.imageIndex
                      (some st.currentFrameIndex),
                    fences := fences2.set st.currentFrameIndex
                      FenceStatus.pending } ∧
            tr = mainTrace st.currentFrameIndex r.imageIndex
              (imageFenceWait fences1 entry).2) ∨
           ((r.presentResult = VkResult.errorOutOfDateKHR ∨
             r.presentResult = VkResult.suboptimalKHR ∨
             st.framebufferResized = true) ∧
            (∃ sz, pollFramebufferSize r.framebufferSizes = some sz) ∧
            st' = { currentFrameIndex := advanceFrameIndex st.currentFrameIndex,
                    framebufferResized := false,
                    imagesInFlight := resizeNull
                      (st.imagesInFlight.set r.imageIndex
                        (some st.currentFrameIndex)) r.newImageCount,
                    fences := fences2.set st.currentFrameIndex
                      FenceStatus.pending } ∧
            tr = mainTrace st.currentFrameIndex r.imageIndex
                (imageFenceWait fences1 entry).2
              ++ rebuildTrace st.imagesInFlight.length r.newImageCount)))) := by
  cases hwr : vkWaitForFence st.fences st.currentFrameIndex with
  | outOfRange => simp [renderFrame, hwr] at hrun
  | blocksForever => simp [renderFrame, hwr] at hrun
  | proceeds fences1 =>
    refine ⟨fences1, rfl, ?_⟩
    cases hacq : r.acquireResult with
    | errorOutOfDateKHR =>
      left
      cases hpoll : pollFramebufferSize r.framebufferSizes with
      | none =>
          simp [renderFrame, hwr, hacq, createSwapChainStep, hpoll] at hrun
      | some sz =>
        simp [renderFrame, hwr, hacq, createSwapChainStep, hpoll] at hrun
        obtain ⟨hst, htr⟩ := hrun
        exact ⟨rfl, ⟨sz, rfl⟩, hst.symm, htr.symm⟩
    | otherError => simp [renderFrame, hwr, hacq] at hrun
    | success =>
      right
      cases hget : st.imagesInFlight[r.imageIndex]? with
      | none => simp [renderFrame, hwr, hacq, hget] at hrun
      | some entry =>
        cases hif : (imageFenceWait fences1 entry).1 with
        | outOfRange => simp [renderFrame, hwr, hacq, hget, hif] at hrun
        | blocksForever => simp [renderFrame, hwr, hacq, hget, hif] at hrun
        | proceeds fences2 =>
          by_cases hsub : r.submitResult = VkResult.success
          · by_cases hpres : r.presentResult = VkResult.errorOutOfDateKHR ∨
                r.presentResult = VkResult.suboptimalKHR ∨
                st.framebufferResized = true
            · simp only [renderFrame, hwr, hacq, hget, hif, hsub, hpres,
                createSwapChainStep] at hrun
              simp [List.length_set] at hrun
              cases hpoll : pollFramebufferSize r.framebufferSizes with
              | none => simp [hpoll] at hrun
              | some sz =>
                simp [hpoll] at hrun
                obtain ⟨hst, htr⟩ := hrun
                refine ⟨Or.inl rfl, hsub, entry, fences2, rfl, hif,
                  Or.inr ⟨hpres, ⟨sz, rfl⟩, hst.symm, ?_⟩⟩
                rw [← htr]
                simp [mainTrace]
            · have hfb : st.framebufferResized = false := by
                cases hfbc : st.framebufferResized
                · rfl
                · exact absurd (Or.inr (Or.inr hfbc)) hpres
              have hp1 : r.presentResult ≠ VkResult.errorOutOfDateKHR :=
                fun h => hpres (Or.inl h)
              have hp2 : r.presentResult ≠ VkResult.suboptimalKHR :=
                fun h => hpres (Or.inr (Or.inl h))
              by_cases hps : r.presentResult = VkResult.success
              · simp [renderFrame, hwr, hacq, hget, hif, hsub, hp1, hp2,
                  hps, hfb] at hrun
                obtain ⟨hst, htr⟩ := hrun
                refine ⟨Or.inl rfl, hsub, entry, fences2, rfl, hif,
                  Or.inl ⟨hpres, hps, ?_, ?_⟩⟩
                · rw [hfb]
                  exact hst.symm
                · rw [← htr]
                  simp [mainTrace]
              · simp [renderFrame, hwr, hacq, hget, hif, hsub, hp1, hp2,
                  hps, hfb] at hrun
          · simp [renderFrame, hwr, hacq, hget, hif, hsub] at hrun
    | suboptimalKHR =>
      right
      cases hget : st.imagesInFlight[r.imageIndex]? with
      | none => simp [renderFrame, hwr, hacq, hget] at hrun
      | some entry =>
        cases hif : (imageFenceWait fences1 entry).1 with
        | outOfRange => simp [renderFrame, hwr, hacq, hget, hif] at hrun
        | blocksForever => simp [renderFrame, hwr, hacq, hget, hif] at hrun
        | proceeds fences2 =>
          by_cases hsub : r.submitResult = VkResult.success
          · by_cases hpres : r.presentResult = VkResult.errorOutOfDateKHR ∨
                r.presentResult = VkResult.suboptimalKHR ∨
                st.framebufferResized = true
            · simp only [renderFrame, hwr, hacq, hget, hif, hsub, hpres,
                createSwapChainStep] at hrun
              simp [List.length_set] at hrun
              cases hpoll : pollFramebufferSize r.framebufferSizes with
              | none => simp [hpoll] at hrun
              | some sz =>
                simp [hpoll] at hrun
                obtain ⟨hst, htr⟩ := hrun
                refine ⟨Or.inr rfl, hsub, entry, fences2, rfl, hif,
                  Or.inr ⟨hpres, ⟨sz, rfl⟩, hst.symm, ?_⟩⟩
                rw [← htr]
                simp [mainTrace]
            · have hfb : st.framebufferResized = false := by
                cases hfbc : st.framebufferResized
                · rfl
                · exact absurd (Or.inr (Or.inr hfbc)) hpres
              have hp1 : r.presentResult ≠ VkResult.errorOutOfDateKHR :=
                fun h => hpres (Or.inl h)
              have hp2 : r.presentResult ≠ VkResult.suboptimalKHR :=
                fun h => hpres (Or.inr (Or.inl h))
              by_cases hps : r.presentResult = VkResult.success
              · simp [renderFrame, hwr, hacq, hget, hif, hsub, hp1, hp2,
                  hps, hfb] at hrun
                obtain ⟨hst, htr⟩ := hrun
                refine ⟨Or.inr rfl, hsub, entry, fences2, rfl, hif,
                  Or.inl ⟨hpres, hps, ?_, ?_⟩⟩
                · rw [hfb]
                  exact hst.symm
                · rw [← htr]
                  simp [mainTrace]
              · simp [renderFrame, hwr, hacq, hget, hif, hsub, hp1, hp2,
                  hps, hfb] at hrun
          · simp [renderFrame, hwr, hacq, hget, hif, hsub] at hrun

/-- Witness for the C4 theorem: an out-of-date acquisition from the initial
two-image state never submits or presents, and an unrecognized acquisition
result throws the acquire error. -/
theorem renderFrame_acquire_outOfDate_or_fatal_witness :
    (∀ i s, Action.submit i s ∉
      [Action.waitFence 0, Action.acquireImage 0] ++ rebuildTrace 2 2) ∧
    renderFrame (initialState 2)
      (DriverResponse.mk VkResult.otherError 0 VkResult.success
        VkResult.success [(800, 600)] 2) =
      RunResult.fatal acquireFailureMsg
        [Action.waitFence 0, Action.acquireImage 0] := by
  constructor
  · intro i s
    exact ((renderFrame_acquire_outOfDate_or_fatal (initialState 2)
      (DriverResponse.mk VkResult.errorOutOfDateKHR 0 VkResult.success
        VkResult.success [(800, 600)] 2)).1 rfl
      (AppState.mk 0 false [none, none]
        [FenceStatus.signaled, FenceStatus.signaled])
      ([Action.waitFence 0, Action.acquireImage 0] ++ rebuildTrace 2 2)
      (by decide)).2.2.1 i s
  · exact (renderFrame_acquire_outOfDate_or_fatal (initialState 2)
      (DriverResponse.mk VkResult.otherError 0 VkResult.success
        VkResult.success [(800, 600)] 2)).2 rfl
      (List.replicate 2 FenceStatus.signaled) (by decide)

/-- Waiting on a fence slot inside the fence vector never reports an
out-of-range access. -/
theorem vkWaitForFence_not_outOfRange (fences : List FenceStatus) (slot : Nat)
    (h : slot < fences.length) :
    vkWaitForFence fences slot ≠ WaitResult.outOfRange := by
  unfold vkWaitForFence
  rw [List.getElem?_eq_getElem h]
  cases fences[slot] <;> simp

/-- A fence wait that proceeds leaves the waited slot signaled and the
others untouched. -/
theorem vkWaitForFence_proceeds_eq {fences f : List FenceStatus} {slot : Nat}
    (h : vkWaitForFence fences slot = WaitResult.proceeds f) :
    slot < fences.length ∧ f = fences.set slot FenceStatus.signaled := by
  unfold vkWaitForFence at h
  cases hg : fences[slot]? with
  | none => rw [hg] at h; exact absurd h (by simp)
  | some fs =>
    have hlt : slot < fences.length := by
      by_contra hge
      rw [List.getElem?_eq_none (Nat.le_of_not_lt hge)] at hg
      exact Option.noConfusion hg
    rw [hg] at h
    cases fs <;> simp_all

/-- The in-flight image wait, when it proceeds, returns either the fences
unchanged (no claim) or with the claiming slot signaled. -/
theorem imageFenceWait_proceeds_eq {fences f : List FenceStatus}
    {entry : Option Nat}
    (h : (imageFenceWait fences entry).1 = WaitResult.proceeds f) :
    f = fences ∨
    ∃ s, entry = some s ∧ f = fences.set s FenceStatus.signaled := by
  cases entry with
  | none =>
    left
    simpa [imageFenceWait] using h.symm
  | some s =>
    right
    exact ⟨s, rfl, ((vkWaitForFence_proceeds_eq (by simpa [imageFenceWait]
      using h))).2⟩

/-- C3: the in-flight fences are created signaled, so the very first wait on
any slot proceeds without blocking; and in every RenderFrame iteration
(whatever the driver responds), the very first driver call of the iteration
is the vkWaitForFences on the current slot's fence - every other use of the
slot's resources comes after it in the trace. -/
theorem renderFrame_waits_slot_fence_first (st : AppState)
    (r : DriverResponse) (n : Nat) :
    (∀ slot, slot < concurrentFrames →
      (initialState n).fences[slot]? = some FenceStatus.signaled ∧
      ∃ f, vkWaitForFence (initialState n).fences slot =
        WaitResult.proceeds f) ∧
    (st.currentFrameIndex < st.fences.length →
      (renderFrame st r).trace.head? =
        some (Action.waitFence st.currentFrameIndex)) := by
  constructor
  · intro slot hslot
    have hl : slot < (initialState n).fences.length := by
      simpa [initialState] using hslot
    have hg : (initialState n).fences[slot]? = some FenceStatus.signaled := by
      rw [List.getElem?_eq_getElem hl]
      simp [initialState]
    refine ⟨hg, ?_⟩
    unfold vkWaitForFence
    rw [hg]
    exact ⟨_, rfl⟩
  · intro h
    cases hwr : vkWaitForFence st.fences st.currentFrameIndex with
    | outOfRange => exact absurd hwr (vkWaitForFence_not_outOfRange _ _ h)
    | blocksForever => simp [renderFrame, hwr, RunResult.trace]
    | proceeds fences1 =>
      simp only [renderFrame, hwr]
      split
      · split <;> simp [RunResult.trace]
      · split
        · simp [RunResult.trace]
        · split
          · simp [RunResult.trace]
          · split
            · simp [RunResult.trace]
            · simp [RunResult.trace]
            · split
              · simp [RunResult.trace]
              · split
                · split <;> simp [RunResult.trace]
                · split
                  · simp [RunResult.trace]
                  · simp [RunResult.trace]

/-- Witness for the C3 theorem: slot 0 of a fresh two-image scheduler is
signaled, and the first action of a fully successful iteration from the
initial state is the wait on slot 0's fence. -/
theorem renderFrame_waits_slot_fence_first_witness :
    ((initialState 2).fences[0]? = some FenceStatus.signaled ∧
      ∃ f, vkWaitForFence (initialState 2).fences 0 =
        WaitResult.proceeds f) ∧
    (renderFrame (initialState 2) allSuccessResponse).trace.head? =
      some (Action.waitFence 0) := by
  constructor
  · exact (renderFrame_waits_slot_fence_first (initialState 2)
      allSuccessResponse 2).1 0 (by decide)
  · exact (renderFrame_waits_slot_fence_first (initialState 2)
      allSuccessResponse 2).2 (by decide)

/-- C2: in any completed RenderFrame iteration that submitted work for the
acquired image index, if the in-flight table held a fence (of slot s) for
that index, then the wait on that fence happens and is immediately followed
by the table being rewritten to the current slot's fence, and the wait
occurs strictly before the queue submission for that image. -/
theorem renderFrame_waits_claimed_image_fence (st st' : AppState)
    (r : DriverResponse) (tr : List Action) (s : Nat)
    (hclaim : st.imagesInFlight[r.imageIndex]? = some (some s))
    (hrun : renderFrame st r = RunResult.ok st' tr)
    (hsubmit : Action.submit r.imageIndex st.currentFrameIndex ∈ tr) :
    (∃ l₁ l₂, tr = l₁ ++ Action.waitImageFence s ::
        Action.markImageInFlight r.imageIndex st.currentFrameIndex :: l₂) ∧
    SeqBefore tr (Action.waitImageFence s)
      (Action.submit r.imageIndex st.currentFrameIndex) := by
  obtain ⟨fences1, hwr, hcase⟩ := renderFrame_ok_inversion st st' r tr hrun
  rcases hcase with ⟨hacq, hpoll, hst, htr⟩ |
    ⟨hacq, hsub, entry, fences2, hget, hif, hrest⟩
  · subst htr
    exact absurd hsubmit (by simp [submit_not_mem_rebuildTrace])
  · have hentry : entry = some s := by
      rw [hget] at hclaim
      exact Option.some_injective _ hclaim
    subst hentry
    rcases hrest with ⟨hnp, hps, hst, htr⟩ | ⟨hp, hpoll, hst, htr⟩
    · subst htr
      constructor
      · exact ⟨[Action.waitFence st.currentFrameIndex,
          Action.acquireImage st.currentFrameIndex],
          [Action.resetFence st.currentFrameIndex,
           Action.submit r.imageIndex st.currentFrameIndex,
           Action.present r.imageIndex st.currentFrameIndex],
          by simp [mainTrace, imageFenceWait]⟩
      · exact ⟨[Action.waitFence st.currentFrameIndex,
          Action.acquireImage st.currentFrameIndex,
          Action.waitImageFence s],
          [Action.markImageInFlight r.imageIndex st.currentFrameIndex,
           Action.resetFence st.currentFrameIndex,
           Action.submit r.imageIndex st.currentFrameIndex,
           Action.present r.imageIndex st.currentFrameIndex],
          by simp [mainTrace, imageFenceWait], by simp, by simp⟩
    · subst htr
      constructor
      · exact ⟨[Action.waitFence st.currentFrameIndex,
          Action.acquireImage st.currentFrameIndex],
          [Action.resetFence st.currentFrameIndex,
           Action.submit r.imageIndex st.currentFrameIndex,
           Action.present r.imageIndex st.currentFrameIndex]
            ++ rebuildTrace st.imagesInFlight.length r.newImageCount,
          by simp [mainTrace, imageFenceWait]⟩
      · exact ⟨[Action.waitFence st.currentFrameIndex,
          Action.acquireImage st.currentFrameIndex,
          Action.waitImageFence s],
          [Action.markImageInFlight r.imageIndex st.currentFrameIndex,
           Action.resetFence st.currentFrameIndex,
           Action.submit r.imageIndex st.currentFrameIndex,
           Action.present r.imageIndex st.currentFrameIndex]
            ++ rebuildTrace st.imagesInFlight.length r.newImageCount,
          by simp [mainTrace, imageFenceWait], by simp, by simp⟩

/-- Witness for the C2 theorem: from a state where image 0 is claimed by
slot 0's pending fence, a fully successful iteration waits on that fence,
immediately rewrites the claim, and only then submits. -/
theorem renderFrame_waits_claimed_image_fence_witness :
    (∃ l₁ l₂,
      [Action.waitFence 0, Action.acquireImage 0, Action.waitImageFence 0,
       Action.markImageInFlight 0 0, Action.resetFence 0, Action.submit 0 0,
       Action.present 0 0] =
        l₁ ++ Action.waitImageFence 0 :: Action.markImageInFlight 0 0 :: l₂) ∧
    SeqBefore
      [Action.waitFence 0, Action.acquireImage 0, Action.waitImageFence 0,
       Action.markImageInFlight 0 0, Action.resetFence 0, Action.submit 0 0,
       Action.present 0 0]
      (Action.waitImageFence 0) (Action.submit 0 0) :=
  renderFrame_waits_claimed_image_fence claimedImageState claimedImageState
    allSuccessResponse
    [Action.waitFence 0, Action.acquireImage 0, Action.waitImageFence 0,
     Action.markImageInFlight 0 0, Action.resetFence 0, Action.submit 0 0,
     Action.present 0 0]
    0 (by decide) (by decide) (by decide)

/-- C10: in any completed RenderFrame iteration, a fence reset targets only
the current slot, happens exactly when a submission registering that same
fence happens, and is immediately followed by that submission in the trace;
on the abandoned out-of-date iteration the frame index is unchanged, the
current fence is left signaled, and no in-flight claim or submission is
made; liveness of the fences (no fence left reset without a registered
submission) holds initially and is preserved, and a wait on any fence of a
live vector never blocks forever. -/
theorem renderFrame_reset_only_before_submit (st st' : AppState)
    (r : DriverResponse) (tr : List Action) (n : Nat)
    (hrun : renderFrame st r = RunResult.ok st' tr) :
    (∀ slot, Action.resetFence slot ∈ tr → slot = st.currentFrameIndex) ∧
    (Action.resetFence st.currentFrameIndex ∈ tr ↔
      Action.submit r.imageIndex st.currentFrameIndex ∈ tr) ∧
    (Action.resetFence st.currentFrameIndex ∈ tr →
      ∃ l₁ l₂, tr = l₁ ++ Action.resetFence st.currentFrameIndex ::
          Action.submit r.imageIndex st.currentFrameIndex :: l₂ ∧
        (∀ s, Action.resetFence s ∉ l₁) ∧ (∀ s, Action.resetFence s ∉ l₂)) ∧
    (r.acquireResult = VkResult.errorOutOfDateKHR →
      st'.currentFrameIndex = st.currentFrameIndex ∧
      st'.fences[st.currentFrameIndex]? = some FenceStatus.signaled ∧
      (∀ i s, Action.markImageInFlight i s ∉ tr) ∧
      (∀ i s, Action.submit i s ∉ tr)) ∧
    (FencesLive st → FencesLive st') ∧
    FencesLive (initialState n) ∧
    (∀ fences : List FenceStatus,
      (∀ f ∈ fences, f ≠ FenceStatus.unsignaled) →
      ∀ slot, slot < fences.length →
        vkWaitForFence fences slot ≠ WaitResult.blocksForever) := by
  obtain ⟨fences1, hwr, hcase⟩ := renderFrame_ok_inversion st st' r tr hrun
  obtain ⟨hlt, hf1⟩ := vkWaitForFence_proceeds_eq hwr
  refine ⟨?_, ?_, ?_, ?_, ?_, ?_, ?_⟩
  · intro slot hmem
    rcases hcase with ⟨hacq, hpoll, hst, htr⟩ |
      ⟨hacq, hsub, entry, fences2, hget, hif, hrest⟩
    · subst htr
      simp [resetFence_not_mem_rebuildTrace] at hmem
    · rcases hrest with ⟨hnp, hps, hst, htr⟩ | ⟨hp, hpoll, hst, htr⟩ <;>
        subst htr <;> cases entry <;>
        simpa [mainTrace, imageFenceWait,
          resetFence_not_mem_rebuildTrace] using hmem
  · rcases hcase with ⟨hacq, hpoll, hst, htr⟩ |
      ⟨hacq, hsub, entry, fences2, hget, hif, hrest⟩
    · constructor <;> intro hmem <;> subst htr
      · simp [resetFence_not_mem_rebuildTrace] at hmem
      · simp [submit_not_mem_rebuildTrace] at hmem
    · rcases hrest with ⟨hnp, hps, hst, htr⟩ | ⟨hp, hpoll, hst, htr⟩ <;>
        subst htr <;> cases entry <;>
        exact iff_of_true (by simp [mainTrace, imageFenceWait])
          (by simp [mainTrace, imageFenceWait])
  · intro hmem
    rcases hcase with ⟨hacq, hpoll, hst, htr⟩ |
      ⟨hacq, hsub, entry, fences2, hget, hif, hrest⟩
    · subst htr
      simp [resetFence_not_mem_rebuildTrace] at hmem
    · rcases hrest with ⟨hnp, hps, hst, htr⟩ | ⟨hp, hpoll, hst, htr⟩
      · subst htr
        cases entry with
        | none =>
          refine ⟨[Action.waitFence st.currentFrameIndex,
            Action.acquireImage st.currentFrameIndex,
            Action.markImageInFlight r.imageIndex st.currentFrameIndex],
            [Action.present r.imageIndex st.currentFrameIndex],
            by simp [mainTrace, imageFenceWait], by simp, by simp⟩
        | some s =>
          refine ⟨[Action.waitFence st.currentFrameIndex,
            Action.acquireImage st.currentFrameIndex,
            Action.waitImageFence s,
            Action.markImageInFlight r.imageIndex st.currentFrameIndex],
            [Action.present r.imageIndex st.currentFrameIndex],
            by simp [mainTrace, imageFenceWait], by simp, by simp⟩
      · subst htr
        cases entry with
        | none =>
          refine ⟨[Action.waitFence st.currentFrameIndex,
            Action.acquireImage st.currentFrameIndex,
            Action.markImageInFlight r.imageIndex st.currentFrameIndex],
            Action.present r.imageIndex st.currentFrameIndex ::
              rebuildTrace st.imagesInFlight.length r.newImageCount,
            by simp [mainTrace, imageFenceWait], by simp,
            by simp [resetFence_not_mem_rebuildTrace]⟩
        | some s =>
          refine ⟨[Action.waitFence st.currentFrameIndex,
            Action.acquireImage st.currentFrameIndex,
            Action.waitImageFence s,
            Action.markImageInFlight r.imageIndex st.currentFrameIndex],
            Action.present r.imageIndex st.currentFrameIndex ::
              rebuildTrace st.imagesInFlight.length r.newImageCount,
            by simp [mainTrace, imageFenceWait], by simp,
            by simp [resetFence_not_mem_rebuildTrace]⟩
  · intro hacq
    rcases hcase with ⟨hacq2, hpoll, hst, htr⟩ |
      ⟨hacq2, hsub, entry, fences2, hget, hif, hrest⟩
    · subst htr
      refine ⟨by rw [hst], ?_, ?_, ?_⟩
      · rw [hst, hf1]
        simp only []
        rw [List.getElem?_set_self]
        exact hlt
      · intro i s
        simp [markImageInFlight_not_mem_rebuildTrace]
      · intro i s
        simp [submit_not_mem_rebuildTrace]
    · rcases hacq2 with h | h <;> rw [hacq] at h <;> exact VkResult.noConfusion h
  · intro hlive f hmem
    have hlive1 : ∀ g ∈ fences1, g ≠ FenceStatus.unsignaled := by
      intro g hg
      rw [hf1] at hg
      rcases List.mem_or_eq_of_mem_set hg with h | h
      · exact hlive g h
      · subst h
        simp
    rcases hcase with ⟨hacq, hpoll, hst, htr⟩ |
      ⟨hacq, hsub, entry, fences2, hget, hif, hrest⟩
    · rw [hst] at hmem
      exact hlive1 f hmem
    · have hlive2 : ∀ g ∈ fences2, g ≠ FenceStatus.unsignaled := by
        rcases imageFenceWait_proceeds_eq hif with h | ⟨s, hse, h⟩
        · subst h
          exact hlive1
        · subst h
          intro g hg
          rcases List.mem_or_eq_of_mem_set hg with h2 | h2
          · exact hlive1 g h2
          · subst h2
            simp
      rcases hrest with ⟨hnp, hps, hst, htr⟩ | ⟨hp, hpoll, hst, htr⟩ <;>
        rw [hst] at hmem <;>
        simp only [] at hmem <;>
        rcases List.mem_or_eq_of_mem_set hmem with h2 | h2
      · exact hlive2 f h2
      · subst h2
        simp
      · exact hlive2 f h2
      · subst h2
        simp
  · intro f hmem
    rw [initialState] at hmem
    simp only [] at hmem
    have := List.eq_of_mem_replicate hmem
    subst this
    simp
  · intro fences hlive slot hlt2
    unfold vkWaitForFence
    rw [List.getElem?_eq_getElem hlt2]
    have hne := hlive _ (List.getElem_mem hlt2)
    cases hfs : fences[slot] <;> simp_all

/-- Witness for the C10 theorem: a fully successful iteration from the
initial two-image state resets slot 0's fence immediately before the
submission that registers it, and nowhere else. -/
theorem renderFrame_reset_only_before_submit_witness :
    ∃ l₁ l₂,
      [Action.waitFence 0, Action.acquireImage 0,
       Action.markImageInFlight 0 0, Action.resetFence 0, Action.submit 0 0,
       Action.present 0 0] =
        l₁ ++ Action.resetFence 0 :: Action.submit 0 0 :: l₂ ∧
      (∀ s, Action.resetFence s ∉ l₁) ∧ (∀ s, Action.resetFence s ∉ l₂) :=
  (renderFrame_reset_only_before_submit (initialState 2)
    { currentFrameIndex := 0, framebufferResized := false,
      imagesInFlight := [some 0, none],
      fences := [FenceStatus.pending, FenceStatus.signaled] }
    allSuccessResponse
    [Action.waitFence 0, Action.acquireImage 0,
     Action.markImageInFlight 0 0, Action.resetFence 0, Action.submit 0 0,
     Action.present 0 0]
    2 (by decide)).2.2.1 (by decide)

/-- Resizing the in-flight table always yields exactly the requested
length. -/
theorem resizeNull_length (l : List (Option Nat)) (n : Nat) :
    (resizeNull l n).length = n := by
  simp [resizeNull]
  omega

/-- C5: in any completed RenderFrame iteration whose acquisition succeeded
(or was suboptimal), if presentation reported out-of-date or suboptimal or
the resize flag was set, the iteration's trace ends with the full rebuild
sequence (device-idle wait, teardown, recreation, table resize), the
presentation precedes the rebuild, the table afterwards has exactly the new
image count, and the resize flag is cleared; and when presentation instead
reports any other non-success result (with no resize pending), the
iteration throws the presentation error. -/
theorem renderFrame_present_rebuild_resizes (st st' : AppState)
    (r : DriverResponse) (tr : List Action) :
    (renderFrame st r = RunResult.ok st' tr →
     (r.acquireResult = VkResult.success ∨
      r.acquireResult = VkResult.suboptimalKHR) →
     (r.presentResult = VkResult.errorOutOfDateKHR ∨
      r.presentResult = VkResult.suboptimalKHR ∨
      st.framebufferResized = true) →
      (∃ l₁, tr = l₁ ++ rebuildTrace st.imagesInFlight.length r.newImageCount ∧
        Action.present r.imageIndex st.currentFrameIndex ∈ l₁) ∧
      st'.imagesInFlight.length = r.newImageCount ∧
      st'.framebufferResized = false) ∧
    (∀ fences1 fences2 entry,
      vkWaitForFence st.fences st.currentFrameIndex =
        WaitResult.proceeds fences1 →
      (r.acquireResult = VkResult.success ∨
       r.acquireResult = VkResult.suboptimalKHR) →
      st.imagesInFlight[r.imageIndex]? = some entry →
      (imageFenceWait fences1 entry).1 = WaitResult.proceeds fences2 →
      r.submitResult = VkResult.success →
      r.presentResult = VkResult.otherError →
      st.framebufferResized = false →
      renderFrame st r = RunResult.fatal presentFailureMsg
        (mainTrace st.currentFrameIndex r.imageIndex
          (imageFenceWait fences1 entry).2)) := by
  constructor
  · intro hrun hacq hpres
    obtain ⟨fences1, hwr, hcase⟩ := renderFrame_ok_inversion st st' r tr hrun
    rcases hcase with ⟨hacq2, hpoll, hst, htr⟩ |
      ⟨hacq2, hsub, entry, fences2, hget, hif, hrest⟩
    · rcases hacq with h | h <;> rw [hacq2] at h <;>
        exact VkResult.noConfusion h
    · rcases hrest with ⟨hnp, hps, hst, htr⟩ | ⟨hp, hpoll, hst, htr⟩
      · exact absurd hpres hnp
      · subst htr
        refine ⟨⟨mainTrace st.currentFrameIndex r.imageIndex
            (imageFenceWait fences1 entry).2, rfl, by simp [mainTrace]⟩,
          ?_, by rw [hst]⟩
        rw [hst]
        simp only []
        exact resizeNull_length _ _
  · intro fences1 fences2 entry hwr hacq hget hif hsub hpres hres
    cases entry with
    | none =>
      rcases hacq with h | h <;>
        simp [renderFrame, hwr, h, hget, hif, hsub, hpres, hres, mainTrace,
          imageFenceWait]
    | some s =>
      simp only [imageFenceWait] at hif
      rcases hacq with h | h <;>
        simp [renderFrame, hwr, h, hget, hif, hsub, hpres, hres, mainTrace,
          imageFenceWait]

/-- Witness for the C5 theorem: a suboptimal presentation from the initial
two-image state rebuilds to three images, with presentation before the
rebuild and the resize flag clear. -/
theorem renderFrame_present_rebuild_resizes_witness :
    (∃ l₁,
      [Action.waitFence 0, Action.acquireImage 0,
       Action.markImageInFlight 0 0, Action.resetFence 0, Action.submit 0 0,
       Action.present 0 0] ++ rebuildTrace 2 3 =
        l₁ ++ rebuildTrace 2 3 ∧ Action.present 0 0 ∈ l₁) ∧
    (AppState.mk 0 false [some 0, none, none]
      [FenceStatus.pending, FenceStatus.signaled]).imagesInFlight.length = 3 ∧
    (AppState.mk 0 false [some 0, none, none]
      [FenceStatus.pending, FenceStatus.signaled]).framebufferResized =
      false :=
  (renderFrame_present_rebuild_resizes (initialState 2)
    (AppState.mk 0 false [some 0, none, none]
      [FenceStatus.pending, FenceStatus.signaled])
    (DriverResponse.mk VkResult.success 0 VkResult.success
      VkResult.suboptimalKHR [(800, 600)] 3)
    ([Action.waitFence 0, Action.acquireImage 0,
      Action.markImageInFlight 0 0, Action.resetFence 0, Action.submit 0 0,
      Action.present 0 0] ++ rebuildTrace 2 3)).1
    (by decide) (Or.inl rfl) (Or.inr (Or.inl rfl))

/-- The per-framebuffer destroy of image i is part of the teardown. -/
theorem mem_dsc_fb {n i : Nat} (h : i < n) :
    Action.destroyFramebuffer i ∈ destroySwapChainTrace n := by
  simp [destroySwapChainTrace, h]

/-- The swap chain handle destroy is part of the teardown. -/
theorem mem_dsc_sc (n : Nat) :
    Action.destroySwapchain ∈ destroySwapChainTrace n := by
  simp [destroySwapChainTrace]

/-- Within DestroySwapChain, every framebuffer is destroyed before the
pipeline. -/
theorem dsc_fb_before_pipeline {n i : Nat} (h : i < n) :
    SeqBefore (destroySwapChainTrace n) (Action.destroyFramebuffer i)
      Action.destroyPipeline := by
  refine ⟨(List.range n).map Action.destroyFramebuffer,
    [Action.freeCommandBuffers, Action.destroyPipeline,
     Action.destroyPipelineLayout, Action.destroyRenderPass]
      ++ (List.range n).map Action.destroyImageView
      ++ [Action.destroySwapchain],
    by simp [destroySwapChainTrace], by simp [h], by simp⟩

/-- Within DestroySwapChain, the pipeline is destroyed before the pipeline
layout. -/
theorem dsc_pipeline_before_layout (n : Nat) :
    SeqBefore (destroySwapChainTrace n) Action.destroyPipeline
      Action.destroyPipelineLayout := by
  refine ⟨(List.range n).map Action.destroyFramebuffer
      ++ [Action.freeCommandBuffers, Action.destroyPipeline],
    [Action.destroyPipelineLayout, Action.destroyRenderPass]
      ++ (List.range n).map Action.destroyImageView
      ++ [Action.destroySwapchain],
    by simp [destroySwapChainTrace], by simp, by simp⟩

/-- Within DestroySwapChain, the pipeline layout is destroyed before the
render pass. -/
theorem dsc_layout_before_renderPass (n : Nat) :
    SeqBefore (destroySwapChainTrace n) Action.destroyPipelineLayout
      Action.destroyRenderPass := by
  refine ⟨(List.range n).map Action.destroyFramebuffer
      ++ [Action.freeCommandBuffers, Action.destroyPipeline,
          Action.destroyPipelineLayout],
    [Action.destroyRenderPass]
      ++ (List.range n).map Action.destroyImageView
      ++ [Action.destroySwapchain],
    by simp [destroySwapChainTrace], by simp, by simp⟩

/-- Within DestroySwapChain, the render pass is destroyed before every
image view. -/
theorem dsc_renderPass_before_iv {n i : Nat} (h : i < n) :
    SeqBefore (destroySwapChainTrace n) Action.destroyRenderPass
      (Action.destroyImageView i) := by
  refine ⟨(List.range n).map Action.destroyFramebuffer
      ++ [Action.freeCommandBuffers, Action.destroyPipeline,
          Action.destroyPipelineLayout, Action.destroyRenderPass],
    (List.range n).map Action.destroyImageView ++ [Action.destroySwapchain],
    by simp [destroySwapChainTrace], by simp, by simp [h]⟩

/-- Within DestroySwapChain, every image view is destroyed before the swap
chain handle. -/
theorem dsc_iv_before_sc {n i : Nat} (h : i < n) :
    SeqBefore (destroySwapChainTrace n) (Action.destroyImageView i)
      Action.destroySwapchain := by
  refine ⟨(List.range n).map Action.destroyFramebuffer
      ++ [Action.freeCommandBuffers, Action.destroyPipeline,
          Action.destroyPipelineLayout, Action.destroyRenderPass]
      ++ (List.range n).map Action.destroyImageView,
    [Action.destroySwapchain],
    by simp [destroySwapChainTrace], by simp [h], by simp⟩

/-- An ordering inside DestroySwapChain holds inside the rebuild path of
CreateSwapChain. -/
theorem SeqBefore.in_rebuild {n : Nat} (m : Nat) {a b : Action}
    (h : SeqBefore (destroySwapChainTrace n) a b) :
    SeqBefore (rebuildTrace n m) a b :=
  (h.append_right _).append_left [Action.deviceWaitIdle]

/-- An ordering inside DestroySwapChain holds inside the shutdown path of
Update/Shutdown. -/
theorem SeqBefore.in_shutdown {n : Nat} {a b : Action}
    (h : SeqBefore (destroySwapChainTrace n) a b) :
    SeqBefore (updateShutdownTrace n) a b := by
  obtain ⟨l₁, l₂, heq, ha, hb⟩ := h
  refine ⟨Action.deviceWaitIdle :: l₁,
    l₂ ++ ([Action.destroyIndexBuffer, Action.destroyVertexBuffer]
      ++ ((List.range concurrentFrames).map fun i =>
            [Action.destroyRenderFinishedSemaphore i,
             Action.destroyImageAvailableSemaphore i,
             Action.destroyFence i]).flatten
      ++ [Action.destroyCommandPool, Action.destroyDevice,
          Action.destroyDebugMessenger, Action.destroySurface,
          Action.destroyVkInstance, Action.destroyWindow,
          Action.terminateGlfw]),
    ?_, List.mem_cons_of_mem _ ha, List.mem_append_left _ hb⟩
  simp [updateShutdownTrace, heq]

/-- The device-idle wait of the rebuild path precedes any teardown
element. -/
theorem rebuild_deviceWaitIdle_first {n : Nat} (m : Nat) {b : Action}
    (hb : b ∈ destroySwapChainTrace n) :
    SeqBefore (rebuildTrace n m) Action.deviceWaitIdle b :=
  ⟨[Action.deviceWaitIdle], _, rfl, by simp, List.mem_append_left _ hb⟩

/-- The device-idle wait at the end of Update precedes any teardown
element of Shutdown. -/
theorem shutdown_deviceWaitIdle_first {n : Nat} {b : Action}
    (hb : b ∈ destroySwapChainTrace n) :
    SeqBefore (updateShutdownTrace n) Action.deviceWaitIdle b :=
  ⟨[Action.deviceWaitIdle], _, rfl, by simp, by simp [hb]⟩

/-- C8: both teardown sites (the rebuild inside CreateSwapChain, and the
Update/Shutdown path) perform the synchronous device-idle wait before any
destroy, and destroy the swap-chain objects in the order framebuffers,
pipeline, pipeline layout, render pass, image views, swap chain handle; at
shutdown the logical device is destroyed only after the swap chain
teardown. -/
theorem teardown_order (n m : Nat) :
    (∀ i, i < n →
      SeqBefore (rebuildTrace n m) Action.deviceWaitIdle
        (Action.destroyFramebuffer i) ∧
      SeqBefore (updateShutdownTrace n) Action.deviceWaitIdle
        (Action.destroyFramebuffer i) ∧
      SeqBefore (rebuildTrace n m) (Action.destroyFramebuffer i)
        Action.destroyPipeline ∧
      SeqBefore (updateShutdownTrace n) (Action.destroyFramebuffer i)
        Action.destroyPipeline ∧
      SeqBefore (rebuildTrace n m) Action.destroyRenderPass
        (Action.destroyImageView i) ∧
      SeqBefore (updateShutdownTrace n) Action.destroyRenderPass
        (Action.destroyImageView i) ∧
      SeqBefore (rebuildTrace n m) (Action.destroyImageView i)
        Action.destroySwapchain ∧
      SeqBefore (updateShutdownTrace n) (Action.destroyImageView i)
        Action.destroySwapchain) ∧
    SeqBefore (rebuildTrace n m) Action.destroyPipeline
      Action.destroyPipelineLayout ∧
    SeqBefore (updateShutdownTrace n) Action.destroyPipeline
      Action.destroyPipelineLayout ∧
    SeqBefore (rebuildTrace n m) Action.destroyPipelineLayout
      Action.destroyRenderPass ∧
    SeqBefore (updateShutdownTrace n) Action.destroyPipelineLayout
      Action.destroyRenderPass ∧
    SeqBefore (rebuildTrace n m) Action.deviceWaitIdle
      Action.destroySwapchain ∧
    SeqBefore (updateShutdownTrace n) Action.deviceWaitIdle
      Action.destroySwapchain ∧
    SeqBefore (updateShutdownTrace n) Action.destroySwapchain
      Action.destroyDevice := by
  refine ⟨?_, (dsc_pipeline_before_layout n).in_rebuild m,
    (dsc_pipeline_before_layout n).in_shutdown,
    (dsc_layout_before_renderPass n).in_rebuild m,
    (dsc_layout_before_renderPass n).in_shutdown,
    rebuild_deviceWaitIdle_first m (mem_dsc_sc n),
    shutdown_deviceWaitIdle_first (mem_dsc_sc n), ?_⟩
  · intro i h
    exact ⟨rebuild_deviceWaitIdle_first m (mem_dsc_fb h),
      shutdown_deviceWaitIdle_first (mem_dsc_fb h),
      (dsc_fb_before_pipeline h).in_rebuild m,
      (dsc_fb_before_pipeline h).in_shutdown,
      (dsc_renderPass_before_iv h).in_rebuild m,
      (dsc_renderPass_before_iv h).in_shutdown,
      (dsc_iv_before_sc h).in_rebuild m,
      (dsc_iv_before_sc h).in_shutdown⟩
  · refine ⟨Action.deviceWaitIdle :: destroySwapChainTrace n
        ++ ([Action.destroyIndexBuffer, Action.destroyVertexBuffer]
          ++ ((List.range concurrentFrames).map fun i =>
                [Action.destroyRenderFinishedSemaphore i,
                 Action.destroyImageAvailableSemaphore i,
                 Action.destroyFence i]).flatten),
      [Action.destroyCommandPool, Action.destroyDevice,
       Action.destroyDebugMessenger, Action.destroySurface,
       Action.destroyVkInstance, Action.destroyWindow,
       Action.terminateGlfw],
      by simp [updateShutdownTrace], ?_, by simp⟩
    simp [mem_dsc_sc n]

/-- Witness for the C8 theorem: the per-image orderings at image 0 of a
two-image swap chain rebuilt to two images. -/
theorem teardown_order_witness :
    SeqBefore (rebuildTrace 2 2) Action.deviceWaitIdle
      (Action.destroyFramebuffer 0) ∧
    SeqBefore (updateShutdownTrace 2) Action.deviceWaitIdle
      (Action.destroyFramebuffer 0) ∧
    SeqBefore (rebuildTrace 2 2) (Action.destroyFramebuffer 0)
      Action.destroyPipeline ∧
    SeqBefore (updateShutdownTrace 2) (Action.destroyFramebuffer 0)
      Action.destroyPipeline ∧
    SeqBefore (rebuildTrace 2 2) Action.destroyRenderPass
      (Action.destroyImageView 0) ∧
    SeqBefore (updateShutdownTrace 2) Action.destroyRenderPass
      (Action.destroyImageView 0) ∧
    SeqBefore (rebuildTrace 2 2) (Action.destroyImageView 0)
      Action.destroySwapchain ∧
    SeqBefore (updateShutdownTrace 2) (Action.destroyImageView 0)
      Action.destroySwapchain :=
  (teardown_order 2 2).1 0 (by decide)

end VulkanTutorial
